import Mathlib

/-!
Verification development for the noble-cctp-relayer processing core.

The Go source is shallowly embedded: pure functions become Lean functions,
the worker loop becomes explicit state passing over a `TxState`, and the
external effects (HTTP calls to the attestation service, chain queries,
broadcasting) are supplied as explicit environment records so that the
control flow of the Go code can be mirrored faithfully.  Machine integers
(`uint64`, `uint`) are modelled as `Nat` with an explicit modulus where the
Go code can overflow.
-/

namespace CCTP

/-- Modulus of Go's `uint64` (and of `uint` on 64-bit platforms). -/
def uint64Mod : Nat := 2 ^ 64

/-! ## Data model (src/unnamed/part_015, `types` package) -/

/-- Status string constants from `types` (src/unnamed/part_015). -/
def Created : String := "created"

def Pending : String := "pending"

def Attested : String := "attested"

def Complete : String := "complete"

def Failed : String := "failed"

def Filtered : String := "filtered"

/-- `types.MessageState` (src/unnamed/part_015).  Timestamps are `Nat`
(an abstract clock); byte slices are `List Nat`. -/
structure MessageState where
  irisLookupID : String
  status : String
  attestation : String
  sourceDomain : Nat
  destDomain : Nat
  sourceTxHash : String
  destTxHash : String
  msgSentBytes : List Nat
  msgBody : List Nat
  destinationCaller : List Nat
  channel : String
  created : Nat
  updated : Nat
  nonce : Nat
  cctpVersion : String
  expirationBlock : Nat
  finalityThreshold : Nat
  reattestCount : Nat
  lastReattestTime : Nat
  deriving Repr, DecidableEq

/-- `types.TxState` (src/unnamed/part_015). -/
structure TxState where
  txHash : String
  msgs : List MessageState
  retryAttempt : Int
  deriving Repr, DecidableEq

/-- `types.CircleSettings` (src/types/config.go).  `ReattestMaxRetries` and
`ExpirationBufferBlocks` are Go `uint`, hence `Nat` here; `FetchRetries` and
`FetchRetryInterval` are Go `int`, hence `Int`. -/
structure CircleSettings where
  attestationBaseURL : String
  apiVersion : String
  fetchRetries : Int
  fetchRetryInterval : Int
  enableFastTransferMonitoring : Bool
  reattestMaxRetries : Nat
  expirationBufferBlocks : Nat
  deriving Repr, DecidableEq

/-- `types.AttestationResponse` (src/types/attestation.go). -/
structure AttestationResponse where
  attestation : String
  status : String
  deriving Repr, DecidableEq

/-- `types.MessageResponseV2` (src/types/attestation.go). -/
structure MessageResponseV2 where
  message : String
  attestation : String
  status : String
  eventNonce : String
  sourceDomain : String
  destinationDomain : String
  cctpVersion : String
  finalityThresholdExecuted : String
  expirationBlock : String
  deriving Repr, DecidableEq

/-! ## Decimal parsing (src/circle/reattest.go `ParseExpirationBlock`) -/

/-- Decimal value of a digit list, most significant first; this is the value
computed by Go's `strconv.ParseUint(s, 10, 64)` on an all-digit string. -/
def parseDigits (l : List Char) : Nat :=
  l.foldl (fun acc c => acc * 10 + (c.toNat - 48)) 0

/-- Go's `strconv.ParseUint(s, 10, 64)`: fails on the empty string, on any
non-digit character, and when the value exceeds `2^64 - 1`. -/
def parseUint64 (s : String) : Option Nat :=
  if s = "" then none
  else if s.toList.all Char.isDigit then
    let n := parseDigits s.toList
    if n < uint64Mod then some n else none
  else none

/-- `circle.ParseExpirationBlock` (src/circle/reattest.go lines 42-52):
converts the expiration block string to `uint64`, returning 0 on any error. -/
def ParseExpirationBlock (s : String) : Nat :=
  if s = "" then 0
  else
    match parseUint64 s with
    | some n => n
    | none => 0

/-- Canonical decimal digit list of a natural number (the decimal string
formatting of a `u64`, e.g. Go's `strconv.FormatUint(x, 10)`). -/
def natToDigits (n : Nat) : List Char :=
  if h : n < 10 then [Char.ofNat (48 + n)]
  else natToDigits (n / 10) ++ [Char.ofNat (48 + n % 10)]
  termination_by n
  decreasing_by exact Nat.div_lt_self (by omega) (by omega)

/-- Decimal string formatting of a natural number. -/
def formatUint64 (n : Nat) : String := ⟨natToDigits n⟩

/-- A string accepted by Go's `strconv.ParseUint(s, 10, 64)`. -/
def isValidDecimalU64 (s : String) : Bool :=
  !(s = "") && s.toList.all Char.isDigit && parseDigits s.toList < uint64Mod

/-! ## Reattestation subsystem (src/circle/reattest.go) -/

/-- `circle.ReattestResult` (src/circle/reattest.go lines 15-21). -/
structure ReattestResult where
  shouldReattest : Bool
  newAttestation : String
  newExpirationBlock : Nat
  exhaustedRetries : Bool
  removeFromQueue : Bool
  deriving Repr, DecidableEq

/-- The Go zero value `&ReattestResult{}`. -/
def ReattestResult.zero : ReattestResult :=
  ⟨false, "", 0, false, false⟩

/-- External responses consumed by `HandleExpiringAttestation`:
`RequestReattestation` and `GetAttestationV2Message` results, with `none`
standing for a non-nil Go error. -/
structure ReattestEnv where
  reattestResp : Option AttestationResponse
  getV2Resp : Option MessageResponseV2
  deriving Repr, DecidableEq

/-- Return value of `HandleExpiringAttestation` together with an explicit
trace of whether the reattest HTTP request was issued. -/
structure HandleOutcome where
  result : ReattestResult
  err : Option String
  reattestCalled : Bool
  deriving Repr, DecidableEq

/-- `maxRetries := cfg.ReattestMaxRetries; if maxRetries == 0 { maxRetries = 3 }`
(src/circle/reattest.go lines 77-80). -/
def maxRetriesDefaulted (cfg : CircleSettings) : Nat :=
  if cfg.reattestMaxRetries = 0 then 3 else cfg.reattestMaxRetries

/-- `circle.HandleExpiringAttestation` (src/circle/reattest.go lines 55-107).
The two HTTP calls are drawn from `env`; `uint64` addition
`currentBlock + bufferBlocks` wraps modulo `2^64` as in Go. -/
def HandleExpiringAttestation (msg : MessageState) (cfg : CircleSettings)
    (currentBlock : Nat) (env : ReattestEnv) : HandleOutcome :=
  if msg.expirationBlock = 0 then
    ⟨ReattestResult.zero, none, false⟩
  else if (currentBlock + cfg.expirationBufferBlocks) % uint64Mod < msg.expirationBlock then
    ⟨ReattestResult.zero, none, false⟩
  else
    let maxRetries := maxRetriesDefaulted cfg
    if maxRetries ≤ msg.reattestCount then
      ⟨⟨true, "", 0, true, false⟩,
       some ("max re-attestation attempts reached" ++
             (" for nonce " ++ toString msg.nonce ++ " (attempts: " ++
              toString msg.reattestCount ++ ")")),
       false⟩
    else
      match env.reattestResp with
      | none =>
          ⟨⟨true, "", 0, false, true⟩,
           some ("re-attestation failed for nonce " ++ toString msg.nonce),
           true⟩
      | some newAttestation =>
          let newExp :=
            match env.getV2Resp with
            | none => 0
            | some updatedMsg => ParseExpirationBlock updatedMsg.expirationBlock
          ⟨⟨true, newAttestation.attestation, newExp, false, false⟩, none, true⟩

/-- `circle.ApplyReattestResult` (src/circle/reattest.go lines 110-135).
The store-mutex argument is omitted (locking is not modelled); `time.Now()`
is the explicit `now` parameter.  `msg.ReattestCount++` is a Go `uint`
increment, wrapping modulo `2^64`. -/
def ApplyReattestResult (msg : MessageState) (result : ReattestResult) (now : Nat) :
    MessageState :=
  if !result.shouldReattest then msg
  else
    let msg1 := { msg with reattestCount := (msg.reattestCount + 1) % uint64Mod,
                           lastReattestTime := now }
    if result.exhaustedRetries then
      { msg1 with status := Failed, updated := now }
    else
      let msg2 :=
        if result.newAttestation ≠ "" then
          { msg1 with attestation := result.newAttestation, updated := now }
        else msg1
      if 0 < result.newExpirationBlock then
        { msg2 with expirationBlock := result.newExpirationBlock }
      else msg2

/-! ## Filter pipeline (src/unnamed/part_006, src/filters/low_transfer.go) -/

/-- A filter's `Filter` method result: `(shouldFilter, reason, err)` with
`some e` standing for a non-nil Go error. -/
def FilterFun : Type := MessageState → Bool × String × Option String

/-- `types.FilterRegistry.Filter` (src/unnamed/part_006 lines 36-48): runs
the registered filters in order, skips any filter that returns an error, and
returns on the first error-free filter that matches. -/
def FilterRegistry.Filter : List FilterFun → MessageState → Bool × String
  | [], _ => (false, "")
  | f :: fs, msg =>
    match f msg with
    | (_, _, some _) => FilterRegistry.Filter fs msg
    | (filtered, filterReason, none) =>
      if filtered then (true, filterReason) else FilterRegistry.Filter fs msg

/-- Reason string of the first error-free filter in the list that matches,
`none` when every filter errors or does not match (specification-side
description used to characterise `FilterRegistry.Filter`). -/
def firstMatchReason : List FilterFun → MessageState → Option String
  | [], _ => none
  | f :: fs, msg =>
    match f msg with
    | (_, _, some _) => firstMatchReason fs msg
    | (filtered, filterReason, none) =>
      if filtered then some filterReason else firstMatchReason fs msg

/-- A chain as seen by the destination-caller filter: the
`IsDestinationCaller` method of the `types.Chain` interface. -/
structure ChainModel where
  isDestinationCaller : List Nat → Bool × String

/-- `filters.DestinationCallerFilter` state (src/filters/low_transfer.go,
second file in the blob, lines 109-113): registered domains and the
`destination_caller_only` mode flag. -/
structure DestinationCallerFilter where
  registeredDomains : List (Nat × ChainModel)
  destinationCallerOnly : Bool

/-- `filters.DestinationCallerFilter.Filter` (src/filters/low_transfer.go
lines 154-173). -/
def DestinationCallerFilter.Filter (f : DestinationCallerFilter) (msg : MessageState) :
    Bool × String × Option String :=
  match (f.registeredDomains.lookup msg.destDomain : Option ChainModel) with
  | none =>
      (true, "destination caller check failed: no chain registered for dest_domain=" ++
        toString msg.destDomain, none)
  | some chain =>
    let vc := chain.isDestinationCaller msg.destinationCaller
    if vc.1 then (false, "", none)
    else if f.destinationCallerOnly || vc.2 ≠ "" then
      (true, "destination caller mismatch: source_domain=" ++ toString msg.sourceDomain ++
        " dest_domain=" ++ toString msg.destDomain ++ " caller=" ++ vc.2, none)
    else (false, "", none)

/-- Hex encoding of a byte, lower case, two digits (Go `hex.EncodeToString`
per byte). -/
def hexByte (b : Nat) : String :=
  String.mk [Nat.digitChar (b / 16 % 16), Nat.digitChar (b % 16)]

/-- Go `hex.EncodeToString` over a byte slice. -/
def hexEncode (bs : List Nat) : String :=
  String.join (bs.map hexByte)

/-- `solana.Solana.IsDestinationCaller` (src/solana/chain.go lines 142-154).
`BytesToSolanaPublicKey` and base58 rendering are not part of src/, so the
non-zero branch takes them as the supplied `pubKeyFromBytes` function
(`none` = conversion error) and the minter's base58 address; the zero-caller
branch is embedded exactly. -/
def Solana.IsDestinationCaller (minterAddress : String)
    (pubKeyFromBytes : List Nat → Option String)
    (destinationCaller : List Nat) : Bool × String :=
  if destinationCaller = List.replicate 32 0 then (true, "")
  else
    match pubKeyFromBytes destinationCaller with
    | none => (false, hexEncode destinationCaller)
    | some solanaAddr => (solanaAddr = minterAddress, solanaAddr)

/-! ## Attestation client hash normalization (src/circle/attestation.go) -/

/-- `circle.normalizeMessageHash` (src/circle/attestation.go lines 77-83 and
src/unnamed/part_005 lines 47-53): adds the `0x` prefix only when the hash
is longer than two characters and its first two characters are not `0x`
(Go indexes bytes; for the ASCII hex hashes this client handles, bytes and
characters coincide). -/
def normalizeMessageHash (hash : String) : String :=
  if 2 < hash.length ∧ hash.take 2 ≠ "0x" then "0x" ++ hash else hash

/-! ## Processor worker (src/unnamed/part_000 `StartProcessor`)

The worker body is embedded as explicit state passing.  External effects
are collected in `AppEnv`: the filter registry's verdict, the attestation
client's responses, the registered chains' latest blocks (`none` when the
domain is not registered), the reattestation HTTP responses, and the
per-domain broadcast outcome.  `now` is the abstract clock used for every
`time.Now()` in one pass. -/

/-- Environment of one `StartProcessor` pass. -/
structure AppEnv where
  filterOutcome : MessageState → Bool × String
  checkAttestation : MessageState → Option AttestationResponse
  getV2Message : MessageState → Option MessageResponseV2
  registeredLatestBlock : Nat → Option Nat
  reattestEnv : MessageState → ReattestEnv
  broadcastOk : Nat → Bool
  apiVersionIsV2 : Bool
  now : Nat

/-- Per-message outcome of stages 1-3 of the loop body: the (possibly
mutated) message, the `requeue` contribution, whether the message is still
in `broadcastMsgs` when the loop body ends, and whether a `continue`
skipped the rest of the body. -/
structure StageOut where
  msg : MessageState
  requeue : Bool
  enqueued : Bool
  skipRest : Bool
  deriving Repr

/-- Filter stage (src/unnamed/part_000 lines 206-231): on a filter match the
status is set to `Filtered` unconditionally. -/
def filterStage (env : AppEnv) (m : MessageState) : MessageState :=
  if (env.filterOutcome m).1 then { m with status := Filtered } else m

/-- Attestation-check stage (src/unnamed/part_000 lines 233-296), applied
to the message after the filter stage.  `skipRest` records the `continue`
statements. -/
def attestationStage (env : AppEnv) (m : MessageState) : StageOut :=
  if m.status = Created ∨ m.status = Pending then
    match env.checkAttestation m with
    | none => ⟨m, true, false, true⟩
    | some response =>
      if m.status = Created ∧ response.status = "pending_confirmations" then
        ⟨{ m with status := Pending, updated := env.now }, true, false, true⟩
      else if response.status = "pending_confirmations" then
        ⟨m, true, false, true⟩
      else if response.status = "complete" then
        let m1 := { m with status := Attested, attestation := response.attestation,
                           updated := env.now }
        let m2 :=
          if env.apiVersionIsV2 then
            match env.getV2Message m1 with
            | some msgResp =>
                { m1 with cctpVersion := msgResp.cctpVersion,
                          expirationBlock := ParseExpirationBlock msgResp.expirationBlock }
            | none => m1
          else m1
        ⟨m2, false, true, false⟩
      else ⟨m, false, false, false⟩
  else ⟨m, false, false, false⟩

/-- Fast-Transfer expiration stage (src/unnamed/part_000 lines 298-318). -/
def expirationStage (env : AppEnv) (cfg : CircleSettings) (b : StageOut) : StageOut :=
  if b.skipRest then b
  else if env.apiVersionIsV2 ∧ b.msg.status = Attested ∧ 0 < b.msg.expirationBlock then
    match env.registeredLatestBlock b.msg.destDomain with
    | some latestBlock =>
      let outcome := HandleExpiringAttestation b.msg cfg latestBlock (env.reattestEnv b.msg)
      let m1 := ApplyReattestResult b.msg outcome.result env.now
      if outcome.result.removeFromQueue then ⟨m1, true, false, true⟩
      else if outcome.result.exhaustedRetries then ⟨m1, b.requeue, b.enqueued, true⟩
      else ⟨m1, b.requeue, b.enqueued, false⟩
    | none => b
  else b

/-- The full per-message loop body (filter, attestation check, expiration
check). -/
def processMsg (env : AppEnv) (cfg : CircleSettings) (m : MessageState) : StageOut :=
  expirationStage env cfg (attestationStage env (filterStage env m))

/-- Broadcast stage as seen by a single message (src/unnamed/part_000 lines
321-349): a message still in `broadcastMsgs` whose destination chain is
registered and whose batch broadcast succeeds becomes `Complete`. -/
def finalizeMsg (env : AppEnv) (cfg : CircleSettings) (m : MessageState) : MessageState :=
  let b := processMsg env cfg m
  if b.enqueued && (env.registeredLatestBlock b.msg.destDomain).isSome &&
      env.broadcastOk b.msg.destDomain then
    { b.msg with status := Complete, updated := env.now }
  else b.msg

/-- The `requeue` flag at the end of one pass: set by the per-message stages
or by a failed broadcast to a registered destination. -/
def passRequeue (env : AppEnv) (cfg : CircleSettings) (msgs : List MessageState) : Bool :=
  msgs.any (fun m => (processMsg env cfg m).requeue) ||
  msgs.any (fun m =>
    let b := processMsg env cfg m
    b.enqueued && (env.registeredLatestBlock b.msg.destDomain).isSome &&
      !env.broadcastOk b.msg.destDomain)

/-- One pass of the `StartProcessor` loop body over a dequeued `TxState`
(admission aside): returns the updated transaction and the `requeue` flag. -/
def processPass (env : AppEnv) (cfg : CircleSettings) (tx : TxState) : TxState × Bool :=
  ({ tx with msgs := tx.msgs.map (finalizeMsg env cfg) }, passRequeue env cfg tx.msgs)

/-- The worker's requeue loop (src/unnamed/part_000 lines 351-360) driven to
completion: repeatedly run a pass and, while the pass requests a requeue and
`retryAttempt < fetchRetries`, increment the attempt and run again.  `fuel`
bounds the recursion; the returned `Nat` counts the passes executed. -/
def runWorker : Nat → AppEnv → CircleSettings → TxState → TxState × Nat
  | 0, _, _, tx => (tx, 0)
  | fuel + 1, env, cfg, tx =>
    if (processPass env cfg tx).2 ∧
        (processPass env cfg tx).1.retryAttempt < cfg.fetchRetries then
      ((runWorker fuel env cfg { (processPass env cfg tx).1 with
          retryAttempt := (processPass env cfg tx).1.retryAttempt + 1 }).1,
       (runWorker fuel env cfg { (processPass env cfg tx).1 with
          retryAttempt := (processPass env cfg tx).1.retryAttempt + 1 }).2 + 1)
    else ((processPass env cfg tx).1, 1)

/-- Terminal statuses (spec §3): `Complete`, `Failed`, `Filtered`. -/
def isTerminal (s : String) : Bool :=
  s = Complete || s = Failed || s = Filtered

/-! ## Derived predicates used in the statements -/

/-- One more than `max(cfg.reattestMaxRetries, 3)`: the bound that
`reattestCount` actually respects (the exhausted-retries application still
increments the counter once). -/
def reattestBound (cfg : CircleSettings) : Nat :=
  max cfg.reattestMaxRetries 3 + 1

/-- Reattestation counter invariant: the counter stays below
`reattestBound`, and it attains the bound only on a `Failed` message. -/
def reattestInv (cfg : CircleSettings) (m : MessageState) : Prop :=
  m.reattestCount ≤ reattestBound cfg ∧
    (m.reattestCount = reattestBound cfg → m.status = Failed)

/-- Fields of `MessageState` that `ApplyReattestResult` never writes. -/
def reattestFrame (m m' : MessageState) : Prop :=
  m'.irisLookupID = m.irisLookupID ∧ m'.sourceDomain = m.sourceDomain ∧
  m'.destDomain = m.destDomain ∧ m'.sourceTxHash = m.sourceTxHash ∧
  m'.destTxHash = m.destTxHash ∧ m'.msgSentBytes = m.msgSentBytes ∧
  m'.msgBody = m.msgBody ∧ m'.destinationCaller = m.destinationCaller ∧
  m'.channel = m.channel ∧ m'.created = m.created ∧ m'.nonce = m.nonce ∧
  m'.cctpVersion = m.cctpVersion ∧ m'.finalityThreshold = m.finalityThreshold

/-! ## Concrete inputs for counterexamples and witnesses -/

/-- A message with every field at its zero value. -/
def msg0 : MessageState :=
  ⟨"", "", "", 0, 0, "", "", [], [], [], "", 0, 0, 0, "", 0, 0, 0, 0⟩

/-- A configuration with every field at its zero value (API version v1). -/
def cfg0 : CircleSettings :=
  ⟨"", "v1", 0, 0, false, 0, 0⟩

/-- C1 counterexample message: an `Attested` Fast Transfer whose
re-attestation budget is already used up. -/
def c1Msg : MessageState :=
  { msg0 with status := Attested, expirationBlock := 1000, reattestCount := 3, nonce := 123 }

/-- C1 counterexample configuration: `reattest-max-retries = 3`,
`expiration-buffer-blocks = 100`. -/
def c1Cfg : CircleSettings :=
  { cfg0 with reattestMaxRetries := 3, expirationBufferBlocks := 100 }

/-- Reattestation environment whose two HTTP calls both fail (irrelevant to
the branches exercised by the concrete inputs below). -/
def envNone : ReattestEnv := ⟨none, none⟩

/-- C2 counterexample environment: the filter registry drops every message;
everything else is inert. -/
def c2Env : AppEnv :=
  ⟨fun _ => (true, "drop"), fun _ => none, fun _ => none, fun _ => none,
   fun _ => ⟨none, none⟩, fun _ => false, false, 0⟩

/-- C2 counterexample transaction: a single message already `Complete`. -/
def c2Tx : TxState :=
  ⟨"tx1", [{ msg0 with status := Complete }], 0⟩

/-- C3 chain: the Solana chain predicate with an arbitrary minter and a
byte-to-public-key conversion that always fails (irrelevant to the
zero-caller branch). -/
def c3Chain : ChainModel :=
  ⟨Solana.IsDestinationCaller "minterAddress" (fun _ => none)⟩

/-- C3 filter state: the Solana chain registered for domain 5 and the
`destination-caller-only` mode enabled. -/
def c3Filter : DestinationCallerFilter :=
  ⟨[(5, c3Chain)], true⟩

/-- C3 message: destination domain 5 with the all-zero (permissionless)
32-byte destination caller. -/
def c3Msg : MessageState :=
  { msg0 with destDomain := 5, destinationCaller := List.replicate 32 0 }

/-- C6 witness environment: the attestation client always returns absent
and no filter matches. -/
def c6Env : AppEnv :=
  ⟨fun _ => (false, ""), fun _ => none, fun _ => none, fun _ => none,
   fun _ => ⟨none, none⟩, fun _ => true, false, 0⟩

/-- C6 witness configuration: `fetch-retries = 2`. -/
def c6Cfg : CircleSettings :=
  { cfg0 with fetchRetries := 2 }

/-- C6 witness transaction: one `Created` message, `retryAttempt = 0`. -/
def c6Tx : TxState :=
  ⟨"tx6", [{ msg0 with status := Created }], 0⟩

/-- C4 witness message: expiration block 1000 (not yet expiring at the
witness block height). -/
def c4Msg : MessageState :=
  { msg0 with status := Attested, expirationBlock := 1000 }

/-- C5 witness message: expiring with the retry budget already used. -/
def c5Msg : MessageState :=
  { msg0 with status := Attested, expirationBlock := 1000, reattestCount := 3, nonce := 123 }

/-- C5 witness configuration. -/
def c5Cfg : CircleSettings :=
  { cfg0 with reattestMaxRetries := 3, expirationBufferBlocks := 100 }

/-- C10 witness reattestation result: `shouldReattest = false`. -/
def c10Res : ReattestResult :=
  ⟨false, "new", 2000, false, false⟩

/-! ## Helper lemmas about the reattestation subsystem -/

theorem applyReattest_noop (msg : MessageState) (r : ReattestResult) (now : Nat)
    (h : r.shouldReattest = false) : ApplyReattestResult msg r now = msg := by
  simp [ApplyReattestResult, h]

theorem applyReattest_count (msg : MessageState) (r : ReattestResult) (now : Nat) :
    (ApplyReattestResult msg r now).reattestCount =
      if r.shouldReattest then (msg.reattestCount + 1) % uint64Mod
      else msg.reattestCount := by
  cases hr : r.shouldReattest
  · simp [ApplyReattestResult, hr]
  · simp only [ApplyReattestResult, hr]
    split_ifs <;> simp_all

theorem applyReattest_status (msg : MessageState) (r : ReattestResult) (now : Nat) :
    (ApplyReattestResult msg r now).status =
      if r.shouldReattest && r.exhaustedRetries then Failed else msg.status := by
  cases hr : r.shouldReattest
  · simp [ApplyReattestResult, hr]
  · simp only [ApplyReattestResult, hr]
    split_ifs <;> simp_all

theorem maxRetriesDefaulted_le (cfg : CircleSettings) :
    maxRetriesDefaulted cfg ≤ max cfg.reattestMaxRetries 3 := by
  unfold maxRetriesDefaulted
  split_ifs <;> omega

theorem handle_exhausted_le (msg : MessageState) (cfg : CircleSettings) (b : Nat)
    (env : ReattestEnv)
    (h : (HandleExpiringAttestation msg cfg b env).result.exhaustedRetries = true) :
    maxRetriesDefaulted cfg ≤ msg.reattestCount := by
  by_cases h1 : msg.expirationBlock = 0
  · simp [HandleExpiringAttestation, h1, ReattestResult.zero] at h
  · by_cases h2 : (b + cfg.expirationBufferBlocks) % uint64Mod < msg.expirationBlock
    · simp [HandleExpiringAttestation, h1, h2, ReattestResult.zero] at h
    · by_cases h3 : maxRetriesDefaulted cfg ≤ msg.reattestCount
      · exact h3
      · exfalso
        cases henv : env.reattestResp <;>
          simp [HandleExpiringAttestation, h1, h2, h3, henv] at h

theorem handle_not_exhausted_lt (msg : MessageState) (cfg : CircleSettings) (b : Nat)
    (env : ReattestEnv)
    (hs : (HandleExpiringAttestation msg cfg b env).result.shouldReattest = true)
    (h : (HandleExpiringAttestation msg cfg b env).result.exhaustedRetries = false) :
    msg.reattestCount < maxRetriesDefaulted cfg := by
  by_cases h3 : maxRetriesDefaulted cfg ≤ msg.reattestCount
  · exfalso
    by_cases h1 : msg.expirationBlock = 0
    · simp [HandleExpiringAttestation, h1, ReattestResult.zero] at hs
    · by_cases h2 : (b + cfg.expirationBufferBlocks) % uint64Mod < msg.expirationBlock
      · simp [HandleExpiringAttestation, h1, h2, ReattestResult.zero] at hs
      · simp [HandleExpiringAttestation, h1, h2, h3] at h
  · omega

end CCTP

namespace CCTP

/-! ## Claim C4 -/

/-- C4: for every message, configuration and destination block height, if the
expiration block is zero or `currentBlock + max(expirationBufferBlocks, 0)`
is below the expiration block, `HandleExpiringAttestation` returns
`shouldReattest = false` with no error, and `ApplyReattestResult` then
leaves the message completely unchanged. -/
theorem C4_not_expiring_noop (msg : MessageState) (cfg : CircleSettings)
    (b now : Nat) (env : ReattestEnv)
    (hwf : msg.expirationBlock < uint64Mod)
    (h : msg.expirationBlock = 0 ∨
         b + max cfg.expirationBufferBlocks 0 < msg.expirationBlock) :
    (HandleExpiringAttestation msg cfg b env).result.shouldReattest = false ∧
    (HandleExpiringAttestation msg cfg b env).err = none ∧
    ApplyReattestResult msg (HandleExpiringAttestation msg cfg b env).result now = msg := by
  have key : HandleExpiringAttestation msg cfg b env = ⟨ReattestResult.zero, none, false⟩ := by
    rcases h with h0 | hlt
    · simp [HandleExpiringAttestation, h0]
    · have hlt' : b + cfg.expirationBufferBlocks < msg.expirationBlock := by
        simpa using hlt
      have hne : msg.expirationBlock ≠ 0 := by omega
      have hmod : (b + cfg.expirationBufferBlocks) % uint64Mod < msg.expirationBlock := by
        rw [Nat.mod_eq_of_lt (lt_trans hlt' hwf)]
        exact hlt'
      simp [HandleExpiringAttestation, hne, hmod]
  rw [key]
  exact ⟨rfl, rfl, applyReattest_noop _ _ _ rfl⟩

/-- C4 witness: concrete not-yet-expiring message (expiration block 1000,
current block 100, buffer 0). -/
theorem C4_witness :
    (HandleExpiringAttestation c4Msg cfg0 100 envNone).result.shouldReattest = false ∧
    (HandleExpiringAttestation c4Msg cfg0 100 envNone).err = none ∧
    ApplyReattestResult c4Msg (HandleExpiringAttestation c4Msg cfg0 100 envNone).result 7 = c4Msg :=
  C4_not_expiring_noop c4Msg cfg0 100 7 envNone (by decide) (Or.inr (by decide))

/-! ## Claim C5 -/

/-- C5: for every expiring message whose `reattestCount` has reached
`maxRetries` (the configured `reattestMaxRetries`, defaulted to 3 when
zero), `HandleExpiringAttestation` returns `shouldReattest = true` and
`exhaustedRetries = true` together with an error whose message starts with
"max re-attestation attempts reached", performs no reattest HTTP request,
and `ApplyReattestResult` then sets the status to `Failed` and updates the
`lastReattestTime` and `updated` timestamps. -/
theorem C5_exhausted_retries (msg : MessageState) (cfg : CircleSettings)
    (b now : Nat) (env : ReattestEnv)
    (h0 : msg.expirationBlock ≠ 0)
    (hexp : msg.expirationBlock ≤ (b + cfg.expirationBufferBlocks) % uint64Mod)
    (hcnt : maxRetriesDefaulted cfg ≤ msg.reattestCount) :
    (HandleExpiringAttestation msg cfg b env).result.shouldReattest = true ∧
    (HandleExpiringAttestation msg cfg b env).result.exhaustedRetries = true ∧
    (∃ t, (HandleExpiringAttestation msg cfg b env).err =
      some ("max re-attestation attempts reached" ++ t)) ∧
    (HandleExpiringAttestation msg cfg b env).reattestCalled = false ∧
    (ApplyReattestResult msg (HandleExpiringAttestation msg cfg b env).result now).status
      = Failed ∧
    (ApplyReattestResult msg (HandleExpiringAttestation msg cfg b env).result now).lastReattestTime
      = now ∧
    (ApplyReattestResult msg (HandleExpiringAttestation msg cfg b env).result now).updated
      = now := by
  have hnl : ¬ ((b + cfg.expirationBufferBlocks) % uint64Mod < msg.expirationBlock) :=
    not_lt.mpr hexp
  have key : HandleExpiringAttestation msg cfg b env =
      ⟨⟨true, "", 0, true, false⟩,
       some ("max re-attestation attempts reached" ++
             (" for nonce " ++ toString msg.nonce ++ " (attempts: " ++
              toString msg.reattestCount ++ ")")),
       false⟩ := by
    simp [HandleExpiringAttestation, h0, hnl, hcnt]
  rw [key]
  exact ⟨rfl, rfl, ⟨_, rfl⟩, rfl, rfl, rfl, rfl⟩

/-- C5 witness: concrete expiring message with the retry budget used up
(`reattestCount = 3`, `reattestMaxRetries = 3`, current block 950, buffer
100, expiration 1000). -/
theorem C5_witness :
    (HandleExpiringAttestation c5Msg c5Cfg 950 envNone).result.shouldReattest = true ∧
    (HandleExpiringAttestation c5Msg c5Cfg 950 envNone).result.exhaustedRetries = true ∧
    (∃ t, (HandleExpiringAttestation c5Msg c5Cfg 950 envNone).err =
      some ("max re-attestation attempts reached" ++ t)) ∧
    (HandleExpiringAttestation c5Msg c5Cfg 950 envNone).reattestCalled = false ∧
    (ApplyReattestResult c5Msg (HandleExpiringAttestation c5Msg c5Cfg 950 envNone).result 7).status
      = Failed ∧
    (ApplyReattestResult c5Msg (HandleExpiringAttestation c5Msg c5Cfg 950 envNone).result 7).lastReattestTime
      = 7 ∧
    (ApplyReattestResult c5Msg (HandleExpiringAttestation c5Msg c5Cfg 950 envNone).result 7).updated
      = 7 :=
  C5_exhausted_retries c5Msg c5Cfg 950 7 envNone (by decide) (by decide) (by decide)

end CCTP

namespace CCTP

/-! ## Claim C10 -/

/-- C10: `ApplyReattestResult` modifies no field of the message other than
`reattestCount`, `lastReattestTime`, `status`, `attestation`, `updated` and
`expirationBlock`; the status only ever changes to `Failed` and only when
`exhaustedRetries` is set; the attestation changes only when
`newAttestation` is non-empty; the expiration block changes only when
`newExpirationBlock > 0`; and when `shouldReattest` is false nothing
changes at all. -/
theorem C10_apply_frame (msg : MessageState) (r : ReattestResult) (now : Nat) :
    reattestFrame msg (ApplyReattestResult msg r now) ∧
    ((ApplyReattestResult msg r now).status ≠ msg.status →
      (ApplyReattestResult msg r now).status = Failed ∧ r.exhaustedRetries = true) ∧
    ((ApplyReattestResult msg r now).attestation ≠ msg.attestation →
      r.newAttestation ≠ "") ∧
    ((ApplyReattestResult msg r now).expirationBlock ≠ msg.expirationBlock →
      0 < r.newExpirationBlock) ∧
    (r.shouldReattest = false → ApplyReattestResult msg r now = msg) := by
  rcases r with ⟨sr, na, ne, ex, rq⟩
  cases sr <;> cases ex <;> by_cases hna : na = "" <;> by_cases hne : 0 < ne <;>
    simp_all [ApplyReattestResult, reattestFrame]

/-- C10 witness: with `shouldReattest = false` the message is returned
unchanged. -/
theorem C10_witness : ApplyReattestResult msg0 c10Res 7 = msg0 :=
  (C10_apply_frame msg0 c10Res 7).2.2.2.2 rfl

/-! ## Claim C1 -/

/-- C1 counterexample: with `reattestMaxRetries = 3` and `reattestCount = 3`
on an expiring Attested message, `HandleExpiringAttestation` reports
exhausted retries and `ApplyReattestResult` still increments the counter to
4, exceeding `max(reattestMaxRetries, 3) = 3`. -/
theorem C1_counterexample :
    max c1Cfg.reattestMaxRetries 3 <
      (ApplyReattestResult c1Msg
        (HandleExpiringAttestation c1Msg c1Cfg 950 envNone).result 7).reattestCount := by
  decide

/-- C1 (amended): the bound that actually holds is
`reattestCount ≤ max(cfg.reattestMaxRetries, 3) + 1`, with the bound
attained only on a `Failed` message; this invariant is preserved by a
`HandleExpiringAttestation` / `ApplyReattestResult` step on an `Attested`
message (the only messages the worker submits to the expiration check). -/
theorem C1_amended_inv (msg : MessageState) (cfg : CircleSettings)
    (b now : Nat) (env : ReattestEnv)
    (hA : msg.status = Attested)
    (hwf : reattestBound cfg < uint64Mod)
    (hinv : reattestInv cfg msg) :
    reattestInv cfg
      (ApplyReattestResult msg (HandleExpiringAttestation msg cfg b env).result now) := by
  set r := (HandleExpiringAttestation msg cfg b env).result with hr
  have hbound : reattestBound cfg = max cfg.reattestMaxRetries 3 + 1 := rfl
  obtain ⟨hle, hbd⟩ := hinv
  have hne : msg.reattestCount ≠ reattestBound cfg := by
    intro he
    have hfail := hbd he
    rw [hA] at hfail
    exact absurd hfail (by decide)
  have hle' : msg.reattestCount ≤ max cfg.reattestMaxRetries 3 := by omega
  have hcnt := applyReattest_count msg r now
  have hst := applyReattest_status msg r now
  cases hsr : r.shouldReattest
  · rw [applyReattest_noop msg r now hsr]
    exact ⟨hle, hbd⟩
  · have hcnt' : (ApplyReattestResult msg r now).reattestCount =
        (msg.reattestCount + 1) % uint64Mod := by
      rw [hcnt, if_pos hsr]
    have hmod : (msg.reattestCount + 1) % uint64Mod = msg.reattestCount + 1 :=
      Nat.mod_eq_of_lt (by omega)
    cases hex : r.exhaustedRetries
    · have hlt := handle_not_exhausted_lt msg cfg b env hsr hex
      have hM := maxRetriesDefaulted_le cfg
      have hst' : (ApplyReattestResult msg r now).status = msg.status := by
        rw [hst, hsr, hex]
        rfl
      constructor
      · rw [hcnt', hmod]
        omega
      · intro hcontra
        rw [hcnt', hmod] at hcontra
        omega
    · have hst' : (ApplyReattestResult msg r now).status = Failed := by
        rw [hst, hsr, hex]
        rfl
      constructor
      · rw [hcnt', hmod]
        omega
      · intro _
        exact hst'

/-- C1 witness: the amended invariant applied at the counterexample input;
the counter reaches `max(3, 3) + 1 = 4` exactly when the status becomes
`Failed`. -/
theorem C1_witness :
    reattestInv c1Cfg
      (ApplyReattestResult c1Msg
        (HandleExpiringAttestation c1Msg c1Cfg 950 envNone).result 7) :=
  C1_amended_inv c1Msg c1Cfg 950 7 envNone (by decide) (by decide)
    ⟨by decide, by decide⟩

end CCTP

namespace CCTP

/-! ## Claim C8 -/

/-- C8 counterexample: the two-character hash "ab" does not start with "0x"
yet `normalizeMessageHash` returns it unchanged instead of prefixing it. -/
theorem C8_counterexample : ¬ (normalizeMessageHash "ab" = "0x" ++ "ab") := by
  decide

/-- C8 (amended): `normalizeMessageHash` prepends "0x" exactly to hashes of
length greater than two whose first two characters are not "0x"; hashes
already starting with "0x" and hashes of length at most two are returned
unchanged. -/
theorem C8_amended :
    (∀ s : String, s.take 2 ≠ "0x" → 2 < s.length →
      normalizeMessageHash s = "0x" ++ s) ∧
    (∀ s : String, s.take 2 = "0x" → normalizeMessageHash s = s) ∧
    (∀ s : String, s.length ≤ 2 → normalizeMessageHash s = s) := by
  refine ⟨fun s hp hl => ?_, fun s hp => ?_, fun s hl => ?_⟩
  · simp [normalizeMessageHash, hp, hl]
  · have hcond : ¬ (2 < s.length ∧ s.take 2 ≠ "0x") := fun hc => hc.2 hp
    simp [normalizeMessageHash, hcond]
  · have hcond : ¬ (2 < s.length ∧ s.take 2 ≠ "0x") := fun hc => absurd hc.1 (by omega)
    simp [normalizeMessageHash, hcond]

/-- C8 witness: concrete hashes exercising the three amended cases. -/
theorem C8_witness :
    normalizeMessageHash "abcd" = "0x" ++ "abcd" ∧
    normalizeMessageHash "0xab" = "0xab" ∧
    normalizeMessageHash "ab" = "ab" :=
  ⟨C8_amended.1 "abcd" (by decide) (by decide),
   C8_amended.2.1 "0xab" (by decide),
   C8_amended.2.2 "ab" (by decide)⟩

/-! ## Claim C3 -/

/-- C3 counterexample: with the Solana chain registered for the destination
domain and `destinationCallerOnly` enabled, the all-zero destination caller
is NOT dropped: the filter returns `drop = false` because the chain reports
the zero caller valid before the mode flag is ever consulted. -/
theorem C3_counterexample :
    c3Filter.destinationCallerOnly = true ∧
    c3Msg.destinationCaller = List.replicate 32 0 ∧
    (DestinationCallerFilter.Filter c3Filter c3Msg).1 = false :=
  ⟨rfl, rfl, by decide⟩

/-- C3 (amended): the all-zero 32-byte destination caller is reported valid
with an empty printable address by the Solana chain predicate, and whenever
the registered destination chain reports the caller valid the
destination-caller filter passes the message through regardless of the
`destinationCallerOnly` mode. -/
theorem C3_amended :
    (∀ (f : DestinationCallerFilter) (msg : MessageState) (chain : ChainModel),
      (f.registeredDomains.lookup msg.destDomain : Option ChainModel) = some chain →
      chain.isDestinationCaller msg.destinationCaller = (true, "") →
      DestinationCallerFilter.Filter f msg = (false, "", none)) ∧
    (∀ (minterAddress : String) (pk : List Nat → Option String),
      Solana.IsDestinationCaller minterAddress pk (List.replicate 32 0) = (true, "")) := by
  constructor
  · intro f msg chain hlk hzero
    simp [DestinationCallerFilter.Filter, hlk, hzero]
  · intro m pk
    simp [Solana.IsDestinationCaller]

/-- C3 witness: the amended statement at the concrete counterexample input
(Solana registered for domain 5, `destinationCallerOnly = true`, zero
caller): the message passes through. -/
theorem C3_witness :
    DestinationCallerFilter.Filter c3Filter c3Msg = (false, "", none) :=
  C3_amended.1 c3Filter c3Msg c3Chain rfl rfl

end CCTP

namespace CCTP

/-! ## Claim C9 -/

/-- C9: the filter registry evaluates filters in registration order and
returns `drop = true` with the reason of the first error-free filter that
matches (every earlier filter either returned an error or did not match,
so errors are treated as non-matching), and it returns `drop = false` with
an empty reason exactly when no error-free filter matched. -/
theorem C9_registry_order (fs : List FilterFun) (msg : MessageState) :
    (FilterRegistry.Filter fs msg = (false, "") ↔
      ∀ f ∈ fs, (f msg).2.2 ≠ none ∨ (f msg).1 = false) ∧
    (∀ r, FilterRegistry.Filter fs msg = (true, r) →
      ∃ l₁ f l₂, fs = l₁ ++ f :: l₂ ∧ (f msg).2.2 = none ∧ (f msg).1 = true ∧
        (f msg).2.1 = r ∧ ∀ g ∈ l₁, (g msg).2.2 ≠ none ∨ (g msg).1 = false) := by
  induction fs with
  | nil =>
    constructor
    · simp [FilterRegistry.Filter]
    · intro r hr
      simp [FilterRegistry.Filter] at hr
  | cons f fs ih =>
    obtain ⟨ih1, ih2⟩ := ih
    rcases hfm : f msg with ⟨fl, rs, er⟩
    cases er with
    | some e =>
      have hstep : FilterRegistry.Filter (f :: fs) msg = FilterRegistry.Filter fs msg := by
        simp [FilterRegistry.Filter, hfm]
      constructor
      · rw [hstep, ih1]
        simp [List.forall_mem_cons, hfm]
      · intro r hr
        rw [hstep] at hr
        obtain ⟨l₁, g, l₂, hfs, h1, h2, h3, h4⟩ := ih2 r hr
        refine ⟨f :: l₁, g, l₂, by rw [hfs]; rfl, h1, h2, h3, ?_⟩
        rw [List.forall_mem_cons]
        exact ⟨Or.inl (by simp [hfm]), h4⟩
    | none =>
      cases fl with
      | true =>
        have hstep : FilterRegistry.Filter (f :: fs) msg = (true, rs) := by
          simp [FilterRegistry.Filter, hfm]
        constructor
        · rw [hstep]
          constructor
          · intro hc
            simp at hc
          · intro hall
            exfalso
            have := hall f (List.mem_cons_self f fs)
            simp [hfm] at this
        · intro r hr
          rw [hstep] at hr
          have hrs : rs = r := by
            simpa using hr
          exact ⟨[], f, fs, rfl, by simp [hfm], by simp [hfm],
            by simp [hfm, hrs], by simp⟩
      | false =>
        have hstep : FilterRegistry.Filter (f :: fs) msg = FilterRegistry.Filter fs msg := by
          simp [FilterRegistry.Filter, hfm]
        constructor
        · rw [hstep, ih1]
          simp [List.forall_mem_cons, hfm]
        · intro r hr
          rw [hstep] at hr
          obtain ⟨l₁, g, l₂, hfs, h1, h2, h3, h4⟩ := ih2 r hr
          refine ⟨f :: l₁, g, l₂, by rw [hfs]; rfl, h1, h2, h3, ?_⟩
          rw [List.forall_mem_cons]
          exact ⟨Or.inr (by simp [hfm]), h4⟩

/-- C9 witness: the empty registry drops nothing. -/
theorem C9_witness : FilterRegistry.Filter [] msg0 = (false, "") :=
  (C9_registry_order [] msg0).1.mpr (by simp)

end CCTP

namespace CCTP

/-! ## Claim C7 -/

theorem parseDigits_append (l : List Char) (c : Char) :
    parseDigits (l ++ [c]) = parseDigits l * 10 + (c.toNat - 48) := by
  simp [parseDigits, List.foldl_append]

theorem charOfNat_digit_toNat : ∀ k : Nat, k < 10 → (Char.ofNat (48 + k)).toNat - 48 = k := by
  intro k hk
  interval_cases k <;> decide

theorem charOfNat_digit_isDigit : ∀ k : Nat, k < 10 → (Char.ofNat (48 + k)).isDigit = true := by
  intro k hk
  interval_cases k <;> decide

theorem natToDigits_parse (n : Nat) : parseDigits (natToDigits n) = n := by
  induction n using Nat.strong_induction_on with
  | _ n ih =>
    rw [natToDigits]
    by_cases h : n < 10
    · simp only [dif_pos h]
      have h1 := charOfNat_digit_toNat n h
      simp [parseDigits]
      omega
    · simp only [dif_neg h]
      rw [parseDigits_append, ih (n / 10) (Nat.div_lt_self (by omega) (by omega))]
      have h1 := charOfNat_digit_toNat (n % 10) (Nat.mod_lt _ (by omega))
      omega

theorem natToDigits_all_digits (n : Nat) : (natToDigits n).all Char.isDigit = true := by
  induction n using Nat.strong_induction_on with
  | _ n ih =>
    rw [natToDigits]
    by_cases h : n < 10
    · simp only [dif_pos h]
      simpa using charOfNat_digit_isDigit n h
    · simp only [dif_neg h, List.all_append]
      rw [ih (n / 10) (Nat.div_lt_self (by omega) (by omega))]
      simpa using charOfNat_digit_isDigit (n % 10) (Nat.mod_lt _ (by omega))

theorem natToDigits_ne_nil (n : Nat) : natToDigits n ≠ [] := by
  rw [natToDigits]
  by_cases h : n < 10
  · simp [h]
  · simp only [dif_neg h]
    intro hc
    have := congrArg List.length hc
    simp at this

theorem formatUint64_ne_empty (x : Nat) : formatUint64 x ≠ "" := by
  intro hc
  apply natToDigits_ne_nil x
  have := congrArg String.data hc
  simpa [formatUint64] using this

/-- C7: for every `x : u64`, parsing the decimal formatting of `x` returns
`x`; and `ParseExpirationBlock` returns 0 on the empty string and on every
string that is not a valid decimal `u64`. -/
theorem C7_roundtrip :
    (∀ x : Nat, x < uint64Mod → ParseExpirationBlock (formatUint64 x) = x) ∧
    ParseExpirationBlock "" = 0 ∧
    (∀ s : String, isValidDecimalU64 s = false → ParseExpirationBlock s = 0) := by
  refine ⟨fun x hx => ?_, by decide, fun s hs => ?_⟩
  · have hne := formatUint64_ne_empty x
    have hl : (formatUint64 x).toList = natToDigits x := rfl
    have hpu : parseUint64 (formatUint64 x) = some x := by
      simp only [parseUint64, if_neg hne, hl, natToDigits_all_digits x, if_pos,
        natToDigits_parse x, if_pos hx]
    simp only [ParseExpirationBlock, if_neg hne, hpu]
  · by_cases he : s = ""
    · simp [ParseExpirationBlock, he]
    · have h0 : ParseExpirationBlock s =
          (match parseUint64 s with | some n => n | none => 0) := by
        simp only [ParseExpirationBlock, if_neg he]
      rw [h0]
      by_cases ha : s.toList.all Char.isDigit = true
      · have hlt : ¬ (parseDigits s.toList < uint64Mod) := by
          intro hc
          have hv : isValidDecimalU64 s = true := by
            simp [isValidDecimalU64, he]
            exact ⟨by simpa using ha, hc⟩
          rw [hs] at hv
          exact Bool.false_ne_true hv
        have hpu : parseUint64 s = none := by
          simp only [parseUint64]
          rw [if_neg he, if_pos ha, if_neg hlt]
        rw [hpu]
      · have hpu : parseUint64 s = none := by
          simp only [parseUint64]
          rw [if_neg he, if_neg ha]
        rw [hpu]

/-- C7 witness: concrete round trip plus the two default-to-zero cases. -/
theorem C7_witness :
    ParseExpirationBlock (formatUint64 123456) = 123456 ∧
    ParseExpirationBlock "" = 0 ∧
    ParseExpirationBlock "nondigits" = 0 :=
  ⟨C7_roundtrip.1 123456 (by decide), C7_roundtrip.2.1,
   C7_roundtrip.2.2 "nondigits" (by decide)⟩

end CCTP

namespace CCTP

/-! ## Claim C2 -/

theorem stageB_inert (env : AppEnv) (m : MessageState)
    (h1 : m.status ≠ Created) (h2 : m.status ≠ Pending) :
    attestationStage env m = ⟨m, false, false, false⟩ := by
  simp [attestationStage, h1, h2]

theorem stageExp_inert (env : AppEnv) (cfg : CircleSettings) (b : StageOut)
    (h : b.msg.status ≠ Attested) (hskip : b.skipRest = false) :
    expirationStage env cfg b = b := by
  simp [expirationStage, hskip, h]

theorem terminal_status_ne (s : String)
    (h : s = Complete ∨ s = Failed ∨ s = Filtered) :
    s ≠ Created ∧ s ≠ Pending ∧ s ≠ Attested := by
  rcases h with h | h | h <;> subst h <;> exact ⟨by decide, by decide, by decide⟩

theorem processMsg_terminal (env : AppEnv) (cfg : CircleSettings) (m : MessageState)
    (hterm : isTerminal m.status = true) :
    processMsg env cfg m = ⟨filterStage env m, false, false, false⟩ := by
  have hcases : m.status = Complete ∨ m.status = Failed ∨ m.status = Filtered := by
    have h := hterm
    simp [isTerminal] at h
    tauto
  have hfs : (filterStage env m).status = Filtered ∨ (filterStage env m).status = m.status := by
    unfold filterStage
    split_ifs
    · exact Or.inl rfl
    · exact Or.inr rfl
  have hterm' : (filterStage env m).status = Complete ∨ (filterStage env m).status = Failed ∨
      (filterStage env m).status = Filtered := by
    rcases hfs with h | h
    · exact Or.inr (Or.inr h)
    · rw [h]; exact hcases
  obtain ⟨hnc, hnp, hna⟩ := terminal_status_ne _ hterm'
  unfold processMsg
  rw [stageB_inert env _ hnc hnp]
  exact stageExp_inert env cfg _ hna rfl

theorem finalize_terminal (env : AppEnv) (cfg : CircleSettings) (m : MessageState)
    (hterm : isTerminal m.status = true) :
    finalizeMsg env cfg m = filterStage env m := by
  unfold finalizeMsg
  rw [processMsg_terminal env cfg m hterm]
  simp

/-- C2 counterexample: one pass of the worker over a message whose status is
already terminal (`Complete`) and whose filter outcome is `drop = true`
overwrites the terminal status with `Filtered`. -/
theorem C2_counterexample :
    c2Tx.msgs.map MessageState.status = [Complete] ∧
    (processPass c2Env cfg0 c2Tx).1.msgs.map MessageState.status = [Filtered] := by
  constructor
  · rfl
  · decide

/-- C2 (amended): a worker pass maps each message through `finalizeMsg`, and
for a message at a terminal status the attestation and broadcast stages
change nothing: the resulting status is `Filtered` when the filter pipeline
drops the message (even overwriting `Complete` or `Failed`), and is the
unchanged terminal status otherwise; in particular a `Filtered` message
stays `Filtered`. -/
theorem C2_amended :
    ∀ (env : AppEnv) (cfg : CircleSettings) (tx : TxState),
      (processPass env cfg tx).1.msgs = tx.msgs.map (finalizeMsg env cfg) ∧
      (∀ m : MessageState, isTerminal m.status = true →
        (finalizeMsg env cfg m).status =
          (if (env.filterOutcome m).1 = true then Filtered else m.status)) := by
  intro env cfg tx
  refine ⟨rfl, fun m hterm => ?_⟩
  rw [finalize_terminal env cfg m hterm]
  unfold filterStage
  split_ifs with hf
  · rfl
  · rfl

/-- C2 witness: with no filter match, a `Complete` message keeps its status
through a full pass. -/
theorem C2_witness :
    (finalizeMsg c6Env cfg0 { msg0 with status := Complete }).status = Complete := by
  have h := (C2_amended c6Env cfg0 c2Tx).2 { msg0 with status := Complete } (by decide)
  simpa [c6Env] using h

end CCTP

namespace CCTP

/-! ## Claim C6 -/

theorem processMsg_created_absent (env : AppEnv) (cfg : CircleSettings) (m : MessageState)
    (hst : m.status = Created)
    (hf : (env.filterOutcome m).1 = false)
    (hc : env.checkAttestation m = none) :
    processMsg env cfg m = ⟨m, true, false, true⟩ := by
  have hfs : filterStage env m = m := by
    simp [filterStage, hf]
  unfold processMsg
  rw [hfs]
  have hB : attestationStage env m = ⟨m, true, false, true⟩ := by
    simp [attestationStage, hst, hc]
  rw [hB]
  simp [expirationStage]

theorem processPass_const (env : AppEnv) (cfg : CircleSettings) (tx : TxState)
    (hfall : ∀ m, (env.filterOutcome m).1 = false)
    (hcall : ∀ m, env.checkAttestation m = none)
    (hst : ∀ m ∈ tx.msgs, m.status = Created)
    (hne : tx.msgs ≠ []) :
    processPass env cfg tx = (tx, true) := by
  have hmsg : ∀ m ∈ tx.msgs, finalizeMsg env cfg m = m := by
    intro m hm
    unfold finalizeMsg
    rw [processMsg_created_absent env cfg m (hst m hm) (hfall m) (hcall m)]
    simp
  have hmap : tx.msgs.map (finalizeMsg env cfg) = tx.msgs := by
    calc tx.msgs.map (finalizeMsg env cfg) = tx.msgs.map id := List.map_congr_left hmsg
    _ = tx.msgs := List.map_id tx.msgs
  have hreq : passRequeue env cfg tx.msgs = true := by
    unfold passRequeue
    have hany : tx.msgs.any (fun m => (processMsg env cfg m).requeue) = true := by
      rcases List.exists_mem_of_ne_nil tx.msgs hne with ⟨m, hm⟩
      refine List.any_eq_true.mpr ⟨m, hm, ?_⟩
      rw [processMsg_created_absent env cfg m (hst m hm) (hfall m) (hcall m)]
    rw [hany]
    simp
  unfold processPass
  rw [hmap, hreq]

theorem runWorker_aux (env : AppEnv) (cfg : CircleSettings)
    (hfall : ∀ m, (env.filterOutcome m).1 = false)
    (hcall : ∀ m, env.checkAttestation m = none) :
    ∀ (d : Nat) (fuel : Nat) (tx : TxState),
      (∀ m ∈ tx.msgs, m.status = Created) → tx.msgs ≠ [] →
      tx.retryAttempt ≤ cfg.fetchRetries →
      (cfg.fetchRetries - tx.retryAttempt).toNat = d →
      d + 1 ≤ fuel →
      (runWorker fuel env cfg tx).1.msgs = tx.msgs ∧
      (runWorker fuel env cfg tx).1.retryAttempt = cfg.fetchRetries ∧
      (runWorker fuel env cfg tx).2 = d + 1 := by
  intro d
  induction d with
  | zero =>
    intro fuel tx hst hne hle hd hfuel
    obtain ⟨f, rfl⟩ : ∃ f, fuel = f + 1 := ⟨fuel - 1, by omega⟩
    have heq : tx.retryAttempt = cfg.fetchRetries := by omega
    have hp := processPass_const env cfg tx hfall hcall hst hne
    simp only [runWorker, hp]
    have hcond : ¬ (True ∧ tx.retryAttempt < cfg.fetchRetries) := by
      simp only [true_and]
      omega
    rw [if_neg hcond]
    exact ⟨rfl, heq, rfl⟩
  | succ d ih =>
    intro fuel tx hst hne hle hd hfuel
    obtain ⟨f, rfl⟩ : ∃ f, fuel = f + 1 := ⟨fuel - 1, by omega⟩
    have hlt : tx.retryAttempt < cfg.fetchRetries := by omega
    have hp := processPass_const env cfg tx hfall hcall hst hne
    simp only [runWorker, hp]
    have hcond : True ∧ tx.retryAttempt < cfg.fetchRetries := ⟨trivial, hlt⟩
    rw [if_pos hcond]
    have hrec := ih f { tx with retryAttempt := tx.retryAttempt + 1 } hst hne
      (by simp only; omega) (by simp only; omega) (by omega)
    exact ⟨hrec.1, hrec.2.1, by rw [hrec.2.2]⟩

/-- C6: when every pass requests a requeue (attestation always absent, no
filter match), the worker re-enqueues the TxState exactly while
`retryAttempt < fetchRetries`, incrementing the attempt each time, so with
`fetchRetries = n` and `retryAttempt` starting at 0 the transaction is
processed exactly `n + 1` times and every message keeps status `Created`. -/
theorem C6_requeue_cap (env : AppEnv) (cfg : CircleSettings) (tx : TxState)
    (n fuel : Nat)
    (hcall : ∀ m, env.checkAttestation m = none)
    (hfall : ∀ m, (env.filterOutcome m).1 = false)
    (hst : ∀ m ∈ tx.msgs, m.status = Created)
    (hne : tx.msgs ≠ [])
    (ha : tx.retryAttempt = 0)
    (hfr : cfg.fetchRetries = (n : Int))
    (hfuel : n + 1 ≤ fuel) :
    (runWorker fuel env cfg tx).2 = n + 1 ∧
    (runWorker fuel env cfg tx).1.msgs = tx.msgs ∧
    (∀ m ∈ (runWorker fuel env cfg tx).1.msgs, m.status = Created) := by
  have hle : tx.retryAttempt ≤ cfg.fetchRetries := by
    rw [ha, hfr]
    omega
  have hd : (cfg.fetchRetries - tx.retryAttempt).toNat = n := by
    rw [ha, hfr]
    omega
  have haux := runWorker_aux env cfg hfall hcall n fuel tx hst hne hle hd hfuel
  refine ⟨haux.2.2, haux.1, ?_⟩
  rw [haux.1]
  exact hst

/-- C6 witness: `fetchRetries = 2`, attestation always absent: the TxState
is processed exactly 3 times and the message stays `Created`. -/
theorem C6_witness :
    (runWorker 3 c6Env c6Cfg c6Tx).2 = 3 ∧
    (runWorker 3 c6Env c6Cfg c6Tx).1.msgs = c6Tx.msgs ∧
    (∀ m ∈ (runWorker 3 c6Env c6Cfg c6Tx).1.msgs, m.status = Created) :=
  C6_requeue_cap c6Env c6Cfg c6Tx 2 3 (fun _ => rfl) (fun _ => rfl)
    (by decide) (by decide) rfl rfl (by omega)

end CCTP
